import Mathlib

set_option maxRecDepth 4000

/-!
Verification of the menu-driven content bot (bot.py).

The development embeds the data model, the content store
(load_data / save_data / create_backup) and the three message handlers
(handle_menu / handle_admin_panel / handle_admin_input) as pure Lean
functions over an explicit file-system state, and proves the behavioural
properties of the specification against them.
-/

/-- One content entry: the Python dict with string fields id and name. -/
structure Item where
  id : String
  name : String
deriving DecidableEq

abbrev Collection := List Item

/-- A parsed JSON object mapping keys to item arrays, kept in insertion
order.  This is the only JSON shape the program reads or writes. -/
abbrev Dict := List (String × Collection)

/-- Python d[k] read: the value at the key, if present. -/
def dictGet? (d : Dict) (k : String) : Option Collection :=
  (d.find? (fun p => p.1 == k)).map (fun p => p.2)

/-- Python d[k] = v: replace the value at an existing key, otherwise
append the key (insertion order preserved, as for Python dicts). -/
def dictSet : Dict → String → Collection → Dict
  | [], k, v => [(k, v)]
  | (k', v') :: rest, k, v =>
    if k' == k then (k', v) :: rest else (k', v') :: dictSet rest k v

/-- What the file system holds at one path. -/
inductive FileState
  | absent
  | corrupt
  | present (d : Dict)
deriving DecidableEq

inductive ReadErr
  | fileNotFound
  | jsonDecodeError
deriving DecidableEq

/-- open plus json.load: FileNotFoundError when the file is absent,
json.JSONDecodeError when its bytes do not parse. -/
def readParse : FileState → Except ReadErr Dict
  | .absent => .error .fileNotFound
  | .corrupt => .error .jsonDecodeError
  | .present d => .ok d

/-- load_data of bot.py: a tolerant read.  Both read errors are caught,
logged at warning level, and replaced by the caller-supplied default,
itself defaulting to the empty dict.  No error reaches the caller. -/
def load_data (fs : FileState) (default : Option Dict) : Dict :=
  match readParse fs with
  | .ok d => d
  | .error _ =>
    match default with
    | some d => d
    | none => []

/-- The five fixed content categories. -/
inductive SectionKey
  | theory
  | questions
  | tests
  | image_tests
  | tasks
deriving DecidableEq

/-- Directory segment of the category, from the sections tables. -/
def dirOf : SectionKey → String
  | .theory => "theory"
  | .questions => "questions"
  | .tests => "tests"
  | .image_tests => "image_tests"
  | .tasks => "tasks"

/-- JSON key of the category, from the sections tables. -/
def keyOf : SectionKey → String
  | .theory => "topics"
  | .questions => "questions"
  | .tests => "tests"
  | .image_tests => "image_tests"
  | .tasks => "tasks"

def pathOf (sec : SectionKey) : String :=
  "data/" ++ dirOf sec ++ "/structure.json"

/-- The sections table of handle_admin_panel and handle_admin_input:
the label typed by the admin, resolved to a category. -/
def sectionOfLabel : String → Option SectionKey
  | "Теория" => some .theory
  | "Теоретические вопросы" => some .questions
  | "Тесты" => some .tests
  | "Тесты по изображениям" => some .image_tests
  | "Ситуационные задачи" => some .tasks
  | _ => none

/-- The sections table of handle_menu; these labels carry emoji. -/
def menuSectionOfLabel : String → Option SectionKey
  | "📚 Теория" => some .theory
  | "❓ Теоретические вопросы" => some .questions
  | "📝 Тесты" => some .tests
  | "🖼️ Тесты по изображениям" => some .image_tests
  | "🧩 Ситуационные задачи" => some .tasks
  | _ => none

/-- os.path.basename: the text after the last path separator. -/
def basename (p : String) : String :=
  String.mk ((p.toList.reverse.takeWhile (fun c => c ≠ '/')).reverse)

/-- The strftime timestamp of create_backup, modelled as a fixed-width
decimal rendering of a logical clock: like %Y%m%d_%H%M%S it is equal
width for every value in range, so lexicographic order of the rendered
timestamps agrees with chronological order. -/
def tsString (t : Nat) : String :=
  String.mk (List.replicate (6 - (toString t).length) '0') ++ toString t

/-- Lexicographic comparison of character lists by code point, the order
Python uses to compare str values. -/
def charListLt : List Char → List Char → Bool
  | [], [] => false
  | [], _ :: _ => true
  | _ :: _, [] => false
  | a :: as, b :: bs => if a = b then charListLt as bs else decide (a < b)

def pyStrLt (a b : String) : Bool := charListLt a.toList b.toList

/-- Python str.startswith: the first string begins the second. -/
def pyStartsWith (pre s : String) : Bool := pre.toList.isPrefixOf s.toList

def insertName (x : String) : List String → List String
  | [] => [x]
  | y :: ys => if pyStrLt x y then x :: y :: ys else y :: insertName x ys

/-- Python sorted applied to a list of file names (ascending). -/
def sortNames : List String → List String
  | [] => []
  | x :: xs => insertName x (sortNames xs)

/-- One file inside the backups directory: its name and the bytes it was
copied from. -/
structure BackupFile where
  name : String
  content : FileState
deriving DecidableEq

/-- The file-system state the program touches: the data files, the
backups directory, and the wall clock feeding the backup timestamps. -/
structure World where
  disk : String → FileState
  backups : List BackupFile
  clock : Nat

def emptyWorld : World where
  disk := fun _ => .absent
  backups := []
  clock := 0

/-- create_backup of bot.py: copy the file into the backups directory
under a timestamp-suffixed name, list the backups whose names start with
the original basename, sort them, and delete the single oldest one when
more than 10 remain after the copy.  When the source file does not exist
shutil.copy2 raises, the error is caught and logged, and nothing
changes. -/
def create_backup (w : World) (path : String) : World :=
  match w.disk path with
  | .absent => w
  | fs =>
    let base := basename path
    let newName := base ++ "_" ++ tsString w.clock
    let bs := w.backups ++ [⟨newName, fs⟩]
    let names := sortNames ((bs.map (fun b => b.name)).filter (fun n => pyStartsWith base n))
    let bs' := if names.length > 10 then bs.filter (fun b => b.name != names.headD "") else bs
    { w with backups := bs', clock := w.clock + 1 }

/-- save_data of bot.py: back the file up first when it already exists
on disk, then write the dict to the path. -/
def save_data (w : World) (path : String) (d : Dict) : World :=
  let w1 :=
    match w.disk path with
    | .absent => w
    | _ => create_backup w path
  { w1 with disk := fun q => if q = path then .present d else w1.disk q }

/-- n sequential save_data calls of the same dict to the same path. -/
def saveRepeat : Nat → World → String → Dict → World
  | 0, w, _, _ => w
  | n + 1, w, path, d => saveRepeat n (save_data w path d) path d

/-- Python str.strip(): whitespace removed from both ends. -/
def stripChars (cs : List Char) : List Char :=
  ((cs.dropWhile Char.isWhitespace).reverse.dropWhile Char.isWhitespace).reverse

def pyStrip (s : String) : String := String.mk (stripChars s.toList)

/-- Python str.split applied to the one-character separator of bot.py:
the pieces of the character list between occurrences of the pipe. -/
def splitOnPipe : List Char → List (List Char)
  | [] => [[]]
  | c :: rest =>
    let r := splitOnPipe rest
    if c = '|' then [] :: r else (c :: r.headD []) :: r.tail

def pySplitPipe (s : String) : List String :=
  (splitOnPipe s.toList).map (fun cs => String.mk cs)

/-- The top-level conversation state stored under the state key. -/
inductive TopState
  | main_menu
  | in_section (sec : SectionKey)
  | admin_panel
deriving DecidableEq

/-- The admin sub-state stored under the admin_state key. -/
inductive AdminSub
  | waiting_add_section
  | waiting_add_item
  | waiting_edit_section
  | waiting_edit_item_list
  | waiting_edit_item
  | waiting_delete_section
  | waiting_delete_item_list
deriving DecidableEq

/-- The per-user context.user_data record. -/
structure Session where
  state : TopState
  admin_state : Option AdminSub
  admin_section : Option String
  admin_selected_item : Option Item
deriving DecidableEq

/-- The responses the handlers can emit, one constructor per reply site,
carrying the data interpolated into the message text. -/
inductive Reply
  | noItemsYet (sec : SectionKey)
  | sectionList (sec : SectionKey)
  | adminWelcome
  | mainMenuPrompt
  | unknownCommand
  | uncaughtError
  | accessDenied
  | chooseSectionAdd
  | chooseSectionEdit
  | chooseSectionDelete
  | unknownAdminCommand
  | promptAddData (lbl : String)
  | invalidSection
  | itemAdded (nm lbl : String)
  | noItemsEdit (lbl : String)
  | chooseEditItem (lbl : String)
  | promptNewName (old : String)
  | itemNotFound
  | itemRenamed (nm : String)
  | noItemsDelete (lbl : String)
  | chooseDeleteItem (lbl : String)
  | itemDeleted (nm : String)
  | retryWithCancel
  | errorReply
deriving DecidableEq

/-- handle_menu of bot.py.  It returns unchanged when the user sits in
the admin panel; a known section label loads the collection and either
reports an empty section (state unchanged) or enters the section state;
the admin-panel label is honoured only for allow-listed identities; the
back-to-menu label resets to main_menu; anything else is an unknown
command leaving the state unchanged.  A present file whose dict lacks
the section key would raise KeyError out of the handler, which the
global error handler turns into a generic error reply. -/
def handle_menu (admins : List Nat) (uid : Nat) (s : Session) (w : World) (msg : String) :
    Session × World × Option Reply :=
  if s.state = .admin_panel then (s, w, none)
  else
    match menuSectionOfLabel msg with
    | some sec =>
      match dictGet? (load_data (w.disk (pathOf sec)) (some [(keyOf sec, [])])) (keyOf sec) with
      | none => (s, w, some .uncaughtError)
      | some c =>
        if c.isEmpty then (s, w, some (.noItemsYet sec))
        else ({ s with state := .in_section sec }, w, some (.sectionList sec))
    | none =>
      if msg = "👑 Админ-панель" ∧ uid ∈ admins then
        ({ s with state := .admin_panel, admin_state := none }, w, some .adminWelcome)
      else if msg = "🔙 Главное меню" then
        ({ s with state := .main_menu, admin_state := none }, w, some .mainMenuPrompt)
      else (s, w, some .unknownCommand)

/-- handle_admin_panel of bot.py: only active in the admin_panel state
with no admin sub-state; re-checks the allow-list and demotes intruders
to main_menu; otherwise the three action labels enter the matching
waiting-for-section sub-state and the back label returns to the main
menu. -/
def handle_admin_panel (admins : List Nat) (uid : Nat) (s : Session) (w : World) (msg : String) :
    Session × World × Option Reply :=
  if s.state ≠ .admin_panel ∨ s.admin_state ≠ none then (s, w, none)
  else if uid ∈ admins then
    if msg = "Добавить элемент" then
      ({ s with admin_state := some .waiting_add_section }, w, some .chooseSectionAdd)
    else if msg = "Редактировать элемент" then
      ({ s with admin_state := some .waiting_edit_section }, w, some .chooseSectionEdit)
    else if msg = "Удалить элемент" then
      ({ s with admin_state := some .waiting_delete_section }, w, some .chooseSectionDelete)
    else if msg = "🔙 Главное меню" then
      ({ s with state := .main_menu, admin_state := none }, w, some .mainMenuPrompt)
    else (s, w, some .unknownAdminCommand)
  else ({ s with state := .main_menu, admin_state := none }, w, some .accessDenied)

/-- The load performed by the admin branches:
load_data(path, default dict with the empty collection under the key). -/
def loadDict (w : World) (sec : SectionKey) : Dict :=
  load_data (w.disk (pathOf sec)) (some [(keyOf sec, [])])

/-- The collection an admin branch obtains for a category: the loaded
dict read at the category key. -/
def loadedColl (w : World) (sec : SectionKey) : Option Collection :=
  dictGet? (loadDict w sec) (keyOf sec)

/-- The two exception classes the admin input handler distinguishes:
ValueError is answered with a retry prompt in the same sub-state, any
other exception resets the sub-state.  Both kinds are raised before any
write, so the file system is unchanged on either path. -/
inductive StepErr
  | valueError
  | otherError
deriving DecidableEq

/-- Lines 294 and 295 of bot.py, shared by several branches: reading the
stored section label and resolving it in the sections table.  A missing
or unknown label raises KeyError (caught as a generic exception). -/
def getSectionCtx (s : Session) : Except StepErr (String × SectionKey) :=
  match s.admin_section with
  | none => .error .otherError
  | some lbl =>
    match sectionOfLabel lbl with
    | none => .error .otherError
    | some sec => .ok (lbl, sec)

/-- The payload parse of the waiting_add_item branch.  For the Теория
label the message must split on the pipe into exactly two parts
(unpacking any other number of parts raises ValueError); the part before
the pipe is discarded unexamined and the part after it is stripped.
Every other section takes the whole stripped message as the name. -/
def parseItemName (lbl : String) (msg : String) : Except StepErr String :=
  if lbl = "Теория" then
    match pySplitPipe msg with
    | [_, nm] => .ok (pyStrip nm)
    | _ => .error .valueError
  else .ok (pyStrip msg)

/-- The body of the try block of handle_admin_input, one arm per admin
sub-state.  The final elif of the Python source answering Отмена is
unreachable: it is tested only after all seven sub-state arms, and the
handler runs only when admin_state is one of exactly those seven values,
so the cancel arm has no counterpart here. -/
def adminInputCore (sub : AdminSub) (s : Session) (w : World) (msg : String) :
    Except StepErr (Session × World × Reply) :=
  match sub with
  | .waiting_add_section =>
    match sectionOfLabel msg with
    | some _ =>
      .ok ({ s with admin_section := some msg, admin_state := some .waiting_add_item },
        w, .promptAddData msg)
    | none => .ok ({ s with admin_state := none }, w, .invalidSection)
  | .waiting_add_item =>
    match getSectionCtx s with
    | .error e => .error e
    | .ok (lbl, sec) =>
      match parseItemName lbl msg with
      | .error e => .error e
      | .ok itemName =>
        let d := loadDict w sec
        match dictGet? d (keyOf sec) with
        | none => .error .otherError
        | some c =>
          let d' := dictSet d (keyOf sec) (c ++ [⟨toString (c.length + 1), itemName⟩])
          let w' := save_data w (pathOf sec) d'
          .ok ({ s with admin_state := none, admin_section := none },
            w', .itemAdded itemName lbl)
  | .waiting_edit_section =>
    match sectionOfLabel msg with
    | none => .ok ({ s with admin_state := none }, w, .invalidSection)
    | some sec =>
      let s1 := { s with admin_section := some msg, admin_state := some .waiting_edit_item_list }
      match dictGet? (loadDict w sec) (keyOf sec) with
      | none => .error .otherError
      | some c =>
        if c.isEmpty then .ok ({ s1 with admin_state := none }, w, .noItemsEdit msg)
        else .ok (s1, w, .chooseEditItem msg)
  | .waiting_edit_item_list =>
    match getSectionCtx s with
    | .error e => .error e
    | .ok (_, sec) =>
      match dictGet? (loadDict w sec) (keyOf sec) with
      | none => .error .otherError
      | some c =>
        match c.find? (fun i => i.name == msg) with
        | some it =>
          .ok ({ s with admin_selected_item := some it, admin_state := some .waiting_edit_item },
            w, .promptNewName it.name)
        | none => .ok ({ s with admin_state := none }, w, .itemNotFound)
  | .waiting_edit_item =>
    let newName := pyStrip msg
    match getSectionCtx s with
    | .error e => .error e
    | .ok (_, sec) =>
      let d := loadDict w sec
      match s.admin_selected_item with
      | none => .error .otherError
      | some _ =>
        -- The Python line selected_item["name"] = new_name mutates the
        -- dict stored during waiting_edit_item_list.  json.load has just
        -- rebuilt d from fresh objects, so no element of d aliases that
        -- stored dict and d is written back unchanged: the rename never
        -- reaches the file.
        let w' := save_data w (pathOf sec) d
        .ok ({ s with admin_state := none, admin_section := none, admin_selected_item := none },
          w', .itemRenamed newName)
  | .waiting_delete_section =>
    match sectionOfLabel msg with
    | none => .ok ({ s with admin_state := none }, w, .invalidSection)
    | some sec =>
      let s1 := { s with admin_section := some msg, admin_state := some .waiting_delete_item_list }
      match dictGet? (loadDict w sec) (keyOf sec) with
      | none => .error .otherError
      | some c =>
        if c.isEmpty then .ok ({ s1 with admin_state := none }, w, .noItemsDelete msg)
        else .ok (s1, w, .chooseDeleteItem msg)
  | .waiting_delete_item_list =>
    match getSectionCtx s with
    | .error e => .error e
    | .ok (_, sec) =>
      let d := loadDict w sec
      match dictGet? d (keyOf sec) with
      | none => .error .otherError
      | some c =>
        match c.find? (fun i => i.name == msg) with
        | some sel =>
          let d' := dictSet d (keyOf sec) (c.filter (fun i => i != sel))
          let w' := save_data w (pathOf sec) d'
          .ok ({ s with admin_state := none, admin_section := none },
            w', .itemDeleted sel.name)
        | none =>
          .ok ({ s with admin_state := none, admin_section := none }, w, .itemNotFound)

/-- handle_admin_input of bot.py: skips unless the user is in the admin
panel with an active sub-state, demotes identities outside the allow
list to main_menu, and otherwise runs the try block; a ValueError is
answered with a retry prompt leaving everything unchanged, any other
exception resets the whole admin sub-state. -/
def handle_admin_input (admins : List Nat) (uid : Nat) (s : Session) (w : World) (msg : String) :
    Session × World × Option Reply :=
  match s.admin_state with
  | none => (s, w, none)
  | some sub =>
    if s.state ≠ .admin_panel then (s, w, none)
    else if uid ∈ admins then
      match adminInputCore sub s w msg with
      | .ok r => (r.1, r.2.1, some r.2.2)
      | .error .valueError => (s, w, some .retryWithCancel)
      | .error .otherError =>
        ({ s with admin_state := none, admin_section := none, admin_selected_item := none },
          w, some .errorReply)
    else ({ s with state := .main_menu, admin_state := none }, w, some .accessDenied)

/-! ## Concrete scenarios used by the behavioural theorems -/

/-- An allow list holding the single admin identity 42. -/
def adminsOne : List Nat := [42]

/-- A file system holding the given Тесты collection and nothing else. -/
def testsWorld (c : Collection) : World where
  disk := fun p => if p = pathOf .tests then .present [("tests", c)] else .absent
  backups := []
  clock := 0

/-- An admin mid-way through Add for the Тесты category. -/
def cancelSession : Session := ⟨.admin_panel, some .waiting_add_item, some "Тесты", none⟩

/-- An admin who selected the item with id 1 and name A for renaming. -/
def editSession : Session :=
  ⟨.admin_panel, some .waiting_edit_item, some "Тесты", some ⟨"1", "A"⟩⟩

/-- An admin who chose Delete on the Тесты category. -/
def deleteSession : Session :=
  ⟨.admin_panel, some .waiting_delete_item_list, some "Тесты", none⟩

/-- Claim C1.  The claim states that the Отмена label, sent from any
admin sub-state, returns to the none sub-state, clears the in-progress
selection, and leaves every on-disk collection byte-identical.  The code
violates this: the Отмена arm of handle_admin_input sits after all seven
sub-state arms and is therefore unreachable, so in waiting_add_item for
a non-Теория category the word Отмена is treated as the payload and an
item named Отмена is appended and persisted.  This theorem evaluates the
handler at that failing input: the Тесты file changes from the empty
collection to one holding the item with id 1 named Отмена. -/
theorem cancel_label_in_waiting_add_item_persists_item :
    (handle_admin_input adminsOne 42 cancelSession (testsWorld []) "Отмена").2.1.disk
        (pathOf .tests)
      = .present [("tests", [⟨"1", "Отмена"⟩])]
    ∧ (testsWorld []).disk (pathOf .tests) = .present [("tests", [])]
    ∧ (handle_admin_input adminsOne 42 cancelSession (testsWorld []) "Отмена").2.2
      = some (.itemAdded "Отмена" "Тесты") := by
  decide

/-- Claim C2.  The claim states that in waiting_edit_item a free-text
input persists the collection with the selected item renamed to the
trimmed input.  The code violates this: the branch reloads the dict from
disk and mutates only the stale selected dict from the earlier load, so
the file is written back unchanged while the bot still answers that the
item was renamed.  This theorem evaluates the handler at the failing
input: renaming the item named A to B leaves the stored collection still
holding A, yet the reply claims the rename and the sub-state returns to
none. -/
theorem edit_rename_is_not_persisted :
    (handle_admin_input adminsOne 42 editSession (testsWorld [⟨"1", "A"⟩]) "B").2.1.disk
        (pathOf .tests)
      = .present [("tests", [⟨"1", "A"⟩])]
    ∧ (handle_admin_input adminsOne 42 editSession (testsWorld [⟨"1", "A"⟩]) "B").2.2
      = some (.itemRenamed "B")
    ∧ (handle_admin_input adminsOne 42 editSession (testsWorld [⟨"1", "A"⟩]) "B").1.admin_state
      = none := by
  decide

/-- Claim C3, counterexample.  The claim predicts that deleting by a
name shared by two structurally equal items removes exactly the first
and leaves the later duplicate in place.  On the collection holding the
item id 2 named B twice, deleting B empties the collection instead of
leaving one copy. -/
theorem delete_with_duplicate_removes_both :
    loadedColl
        (handle_admin_input adminsOne 42 deleteSession
          (testsWorld [⟨"2", "B"⟩, ⟨"2", "B"⟩]) "B").2.1 .tests
      = some []
    ∧ ¬ loadedColl
        (handle_admin_input adminsOne 42 deleteSession
          (testsWorld [⟨"2", "B"⟩, ⟨"2", "B"⟩]) "B").2.1 .tests
      = some [⟨"2", "B"⟩] := by
  decide

/-- The starting state of the delete-then-add scenario of claim C4: the
Тесты collection holds the items id 1 name A and id 2 name B. -/
def w4Start : World where
  disk := fun p =>
    if p = pathOf .tests then .present [("tests", [⟨"1", "A"⟩, ⟨"2", "B"⟩])] else .absent
  backups := []
  clock := 0

/-- Deleting the item named A. -/
def step1 : Session × World × Option Reply :=
  handle_admin_input adminsOne 42
    ⟨.admin_panel, some .waiting_delete_item_list, some "Тесты", none⟩ w4Start "A"

/-- Choosing Add from the admin panel. -/
def step2 : Session × World × Option Reply :=
  handle_admin_panel adminsOne 42 step1.1 step1.2.1 "Добавить элемент"

/-- Choosing the Тесты category for the add. -/
def step3 : Session × World × Option Reply :=
  handle_admin_input adminsOne 42 step2.1 step2.2.1 "Тесты"

/-- Sending the new name C. -/
def step4 : Session × World × Option Reply :=
  handle_admin_input adminsOne 42 step3.1 step3.2.1 "C"

/-- Claim C4, counterexample.  The claim predicts the final collection
id 2 name B, id 1 name C.  The code computes the new id as the length of
the surviving collection plus one, which is 2, so the actual final
collection is id 2 name B, id 2 name C and the claimed collection is not
produced. -/
theorem delete_then_add_gives_id_two :
    loadedColl step4.2.1 .tests = some [⟨"2", "B"⟩, ⟨"2", "C"⟩]
    ∧ ¬ loadedColl step4.2.1 .tests = some [⟨"2", "B"⟩, ⟨"1", "C"⟩] := by
  decide

/-- Claim C4, amended.  Starting from the collection id 1 name A, id 2
name B, deleting A and then adding C yields exactly the collection id 2
name B, id 2 name C: both items remain present, and the id of the new
item duplicates the id of the surviving item. -/
theorem delete_then_add_duplicates_surviving_id :
    loadedColl step4.2.1 .tests = some [⟨"2", "B"⟩, ⟨"2", "C"⟩]
    ∧ ((loadedColl step4.2.1 .tests).getD []).map (fun i => i.id) = ["2", "2"]
    ∧ (⟨"2", "B"⟩ : Item) ∈ (loadedColl step4.2.1 .tests).getD []
    ∧ (⟨"2", "C"⟩ : Item) ∈ (loadedColl step4.2.1 .tests).getD [] := by
  decide

/-- Claim C5.  Fifteen sequential saves of the same collection file,
starting from no file and no backups: the first save finds no file and
takes no backup, each of the following fourteen saves snapshots the file
first, and every snapshot beyond the tenth evicts the lexicographically
oldest one.  Exactly 10 snapshots remain and they are the last 10 of the
14 taken, that is the 10 most recent by timestamp. -/
theorem backup_cap_after_fifteen_saves :
    (saveRepeat 15 emptyWorld (pathOf .tests) [("tests", [])]).backups.map (fun b => b.name)
      = ((List.range 14).map (fun t => "structure.json_" ++ tsString t)).drop 4
    ∧ (saveRepeat 15 emptyWorld (pathOf .tests) [("tests", [])]).backups.length = 10 := by
  decide

/-- The Теория collection file content of the shared-pool scenario. -/
def dTheory : Dict := [("topics", [⟨"1", "Кожа"⟩])]

/-- The Ситуационные задачи collection file content of the scenario. -/
def dTasks : Dict := [("tasks", [⟨"1", "Задача"⟩])]

/-- Create the tasks file (no backup is taken for a fresh file). -/
def w9a : World := save_data emptyWorld (pathOf .tasks) dTasks

/-- Eleven saves of the theory file: ten theory snapshots accumulate. -/
def w9b : World := saveRepeat 11 w9a (pathOf .theory) dTheory

/-- One further save of the tasks file. -/
def w9c : World := save_data w9b (pathOf .tasks) dTasks

/-! ## Helper lemmas -/

theorem string_toList_append (a b : String) : (a ++ b).toList = a.toList ++ b.toList := by
  cases a
  cases b
  rfl

theorem string_mk_toList (s : String) : String.mk s.toList = s := by
  cases s
  rfl

theorem splitOnPipe_ne_nil (cs : List Char) : splitOnPipe cs ≠ [] := by
  cases cs with
  | nil => simp [splitOnPipe]
  | cons c rest =>
    simp only [splitOnPipe]
    by_cases h : c = '|' <;> simp [h]

theorem splitOnPipe_length (cs : List Char) :
    (splitOnPipe cs).length = cs.count '|' + 1 := by
  induction cs with
  | nil => rfl
  | cons c rest ih =>
    by_cases h : c = '|'
    · subst h
      simp [splitOnPipe, List.count_cons, ih]
    · rcases hr : splitOnPipe rest with _ | ⟨a, as⟩
      · exact absurd hr (splitOnPipe_ne_nil rest)
      · have h2 := ih
        rw [hr] at h2
        simp only [List.length_cons] at h2
        simp [splitOnPipe, h, hr, List.count_cons, List.length_cons]
        omega

theorem splitOnPipe_no_pipe (cs : List Char) (h : '|' ∉ cs) : splitOnPipe cs = [cs] := by
  induction cs with
  | nil => rfl
  | cons c rest ih =>
    have hc : ¬ c = '|' := fun e => h (by rw [e]; exact List.mem_cons_self _ _)
    have hrest : '|' ∉ rest := fun m => h (List.mem_cons_of_mem _ m)
    simp [splitOnPipe, hc, ih hrest]

theorem splitOnPipe_single (xs ys : List Char) (hx : '|' ∉ xs) (hy : '|' ∉ ys) :
    splitOnPipe (xs ++ '|' :: ys) = [xs, ys] := by
  induction xs with
  | nil => simp [splitOnPipe, splitOnPipe_no_pipe ys hy]
  | cons c xs ih =>
    have hc : ¬ c = '|' := fun e => hx (by rw [e]; exact List.mem_cons_self _ _)
    have hxs : '|' ∉ xs := fun m => hx (List.mem_cons_of_mem _ m)
    simp [splitOnPipe, hc, ih hxs]

theorem pySplitPipe_split (X Y : String) (hX : '|' ∉ X.toList) (hY : '|' ∉ Y.toList) :
    pySplitPipe (X ++ "|" ++ Y) = [X, Y] := by
  unfold pySplitPipe
  rw [string_toList_append, string_toList_append]
  rw [show ("|" : String).toList = ['|'] from rfl, List.append_assoc]
  rw [show ['|'] ++ Y.toList = '|' :: Y.toList from rfl]
  rw [splitOnPipe_single X.toList Y.toList hX hY]
  simp [string_mk_toList]

theorem pySplitPipe_length (s : String) :
    (pySplitPipe s).length = s.toList.count '|' + 1 := by
  unfold pySplitPipe
  rw [List.length_map, splitOnPipe_length]

theorem parseItemName_topics_ok (X Y : String) (hX : '|' ∉ X.toList) (hY : '|' ∉ Y.toList) :
    parseItemName "Теория" (X ++ "|" ++ Y) = .ok (pyStrip Y) := by
  unfold parseItemName
  rw [if_pos rfl, pySplitPipe_split X Y hX hY]

theorem parseItemName_topics_err (msg : String) (h : msg.toList.count '|' ≠ 1) :
    parseItemName "Теория" msg = .error .valueError := by
  have hlen : (pySplitPipe msg).length ≠ 2 := by
    rw [pySplitPipe_length]
    omega
  unfold parseItemName
  rw [if_pos rfl]
  rcases hp : pySplitPipe msg with _ | ⟨a, _ | ⟨b, _ | ⟨e, cs⟩⟩⟩
  · rfl
  · rfl
  · rw [hp] at hlen
    simp at hlen
  · rfl

theorem dictGet?_dictSet (d : Dict) (k : String) (v : Collection) :
    dictGet? (dictSet d k v) k = some v := by
  induction d with
  | nil => simp [dictSet, dictGet?, List.find?]
  | cons p rest ih =>
    rcases p with ⟨k', v'⟩
    by_cases h : k' == k
    · simp [dictSet, h, dictGet?, List.find?]
    · simp only [dictSet, h, if_false, Bool.false_eq_true]
      simpa [dictGet?, List.find?, h] using ih

theorem save_data_disk_self (w : World) (path : String) (d : Dict) :
    (save_data w path d).disk path = .present d := by
  unfold save_data
  simp

theorem loadedColl_save (w : World) (sec : SectionKey) (d : Dict) :
    loadedColl (save_data w (pathOf sec) d) sec = dictGet? d (keyOf sec) := by
  unfold loadedColl loadDict
  rw [save_data_disk_self]
  rfl

/-- Claim C9.  Every category file shares the basename structure.json,
so every snapshot name starts with that basename and the 10-snapshot cap
is enforced over the union of all categories.  In the scenario, ten
theory snapshots exist; a save of the tasks file adds an eleventh
snapshot and evicts the oldest snapshot of the pool, which holds theory
content, not tasks content. -/
theorem backup_pool_is_shared_across_sections :
    (∀ sec : SectionKey, basename (pathOf sec) = "structure.json")
    ∧ (⟨"structure.json_000000", .present dTheory⟩ : BackupFile) ∈ w9b.backups
    ∧ ¬ (⟨"structure.json_000000", .present dTheory⟩ : BackupFile) ∈ w9c.backups
    ∧ (⟨"structure.json_000010", .present dTasks⟩ : BackupFile) ∈ w9c.backups
    ∧ w9c.backups.length = 10 := by
  refine ⟨fun sec => ?_, by decide, by decide, by decide, by decide⟩
  cases sec <;> rfl

/-- Claim C6.  For an identity outside the admin allow list, sending the
admin-panel label from the main menu never changes the top-level state:
the label is treated like any unknown command and the whole session,
including the file system, is returned unchanged. -/
theorem non_admin_label_keeps_main_menu
    (admins : List Nat) (uid : Nat) (s : Session) (w : World)
    (hna : uid ∉ admins) (hstate : s.state = .main_menu) :
    handle_menu admins uid s w "👑 Админ-панель" = (s, w, some .unknownCommand) := by
  have hm : menuSectionOfLabel "👑 Админ-панель" = none := by decide
  unfold handle_menu
  rw [hstate, hm]
  simp [hna]

theorem non_admin_label_keeps_main_menu_witness :
    handle_menu adminsOne 7 ⟨.main_menu, none, none, none⟩ emptyWorld "👑 Админ-панель"
      = (⟨.main_menu, none, none, none⟩, emptyWorld, some .unknownCommand) :=
  non_admin_label_keeps_main_menu adminsOne 7 ⟨.main_menu, none, none, none⟩ emptyWorld
    (by decide) rfl

/-- Claim C7.  Whenever the file is absent or its bytes do not parse,
load_data returns the caller default (the empty dict when no default is
supplied) instead of raising: the total function returns on both caught
error classes. -/
theorem tolerant_read_returns_default (fs : FileState) (dflt : Option Dict)
    (h : fs = .absent ∨ fs = .corrupt) :
    load_data fs dflt = dflt.getD [] := by
  rcases h with h | h <;> subst h <;> cases dflt <;> rfl

theorem tolerant_read_returns_default_witness :
    load_data .absent (some [("tests", [])]) = [("tests", [])]
    ∧ load_data .corrupt none = [] :=
  ⟨tolerant_read_returns_default .absent (some [("tests", [])]) (Or.inl rfl),
    tolerant_read_returns_default .corrupt none (Or.inr rfl)⟩

/-- Claim C8.  Choosing a category whose loaded collection is empty in
waiting_edit_section or waiting_delete_section ends the handler call
with the sub-state already back at none while the top-level state stays
admin_panel, answering with the matching no-items message; the item-list
sub-state assigned mid-branch is overwritten before the handler returns
and is never observable between messages. -/
theorem empty_section_skips_item_list
    (admins : List Nat) (uid : Nat) (s : Session) (w : World) (msg : String)
    (sec : SectionKey)
    (hadm : uid ∈ admins)
    (hstate : s.state = .admin_panel)
    (hsub : s.admin_state = some .waiting_edit_section
      ∨ s.admin_state = some .waiting_delete_section)
    (hsec : sectionOfLabel msg = some sec)
    (hempty : loadedColl w sec = some []) :
    (handle_admin_input admins uid s w msg).1.admin_state = none
    ∧ (handle_admin_input admins uid s w msg).1.state = .admin_panel
    ∧ ((handle_admin_input admins uid s w msg).2.2 = some (.noItemsEdit msg)
      ∨ (handle_admin_input admins uid s w msg).2.2 = some (.noItemsDelete msg)) := by
  unfold loadedColl at hempty
  obtain ⟨st, sub, albl, asel⟩ := s
  simp only at hstate hsub
  subst hstate
  rcases hsub with h | h <;> subst h <;>
    simp [handle_admin_input, adminInputCore, hadm, hsec, hempty]

theorem empty_section_skips_item_list_witness :
    (handle_admin_input adminsOne 42
        ⟨.admin_panel, some .waiting_edit_section, none, none⟩ emptyWorld "Тесты").1.admin_state
      = none
    ∧ (handle_admin_input adminsOne 42
        ⟨.admin_panel, some .waiting_edit_section, none, none⟩ emptyWorld "Тесты").1.state
      = .admin_panel
    ∧ ((handle_admin_input adminsOne 42
        ⟨.admin_panel, some .waiting_edit_section, none, none⟩ emptyWorld "Тесты").2.2
        = some (.noItemsEdit "Тесты")
      ∨ (handle_admin_input adminsOne 42
        ⟨.admin_panel, some .waiting_edit_section, none, none⟩ emptyWorld "Тесты").2.2
        = some (.noItemsDelete "Тесты")) :=
  empty_section_skips_item_list adminsOne 42
    ⟨.admin_panel, some .waiting_edit_section, none, none⟩ emptyWorld "Тесты" .tests
    (by decide) rfl (Or.inl rfl) (by decide) (by decide)

/-- Claim C3, amended.  In waiting_delete_item_list, when an item with
the given name exists, the handler selects the first structural match
and removes from the persisted collection every item structurally equal
to it (the Python filter compares whole dicts), so items differing from
the match in id or in name survive while every duplicate of the match is
deleted; the sub-state returns to none. -/
theorem delete_removes_every_structural_match
    (admins : List Nat) (uid : Nat) (s : Session) (w : World) (msg lbl : String)
    (sec : SectionKey) (c : Collection) (sel : Item)
    (hadm : uid ∈ admins)
    (hstate : s.state = .admin_panel)
    (hsub : s.admin_state = some .waiting_delete_item_list)
    (hlbl : s.admin_section = some lbl)
    (hsec : sectionOfLabel lbl = some sec)
    (hcoll : loadedColl w sec = some c)
    (hfind : c.find? (fun i => i.name == msg) = some sel) :
    loadedColl (handle_admin_input admins uid s w msg).2.1 sec
      = some (c.filter (fun i => i != sel))
    ∧ (handle_admin_input admins uid s w msg).1.admin_state = none := by
  unfold loadedColl loadDict at hcoll
  obtain ⟨st, sub, albl, asel⟩ := s
  simp only at hstate hsub hlbl
  subst hstate
  subst hsub
  subst hlbl
  simp [handle_admin_input, adminInputCore, getSectionCtx, hadm, hsec, hcoll, hfind,
    loadedColl_save, dictGet?_dictSet, loadDict]

theorem delete_removes_every_structural_match_witness :
    loadedColl
        (handle_admin_input adminsOne 42 deleteSession
          (testsWorld [⟨"1", "A"⟩, ⟨"1", "B"⟩]) "B").2.1 .tests
      = some [⟨"1", "A"⟩]
    ∧ (handle_admin_input adminsOne 42 deleteSession
        (testsWorld [⟨"1", "A"⟩, ⟨"1", "B"⟩]) "B").1.admin_state = none :=
  delete_removes_every_structural_match adminsOne 42 deleteSession
    (testsWorld [⟨"1", "A"⟩, ⟨"1", "B"⟩]) "B" "Тесты" .tests
    [⟨"1", "A"⟩, ⟨"1", "B"⟩] ⟨"1", "B"⟩
    (by decide) rfl rfl rfl rfl (by decide) (by decide)

/-- Claim C10.  For the Теория category, an Add payload of the shape
X pipe Y with exactly one pipe adds an item named with the stripped Y,
for every value of X, which is discarded without validation; a payload
whose pipe count is not exactly one raises ValueError, which the handler
answers with a retry prompt leaving the session, the sub-state and the
file system unchanged. -/
theorem topics_payload_discards_category_part
    (admins : List Nat) (uid : Nat) (s : Session) (w : World)
    (c : Collection) (X Y badMsg : String)
    (hadm : uid ∈ admins)
    (hstate : s.state = .admin_panel)
    (hsub : s.admin_state = some .waiting_add_item)
    (hlbl : s.admin_section = some "Теория")
    (hc : loadedColl w .theory = some c)
    (hX : '|' ∉ X.toList) (hY : '|' ∉ Y.toList)
    (hbad : badMsg.toList.count '|' ≠ 1) :
    loadedColl (handle_admin_input admins uid s w (X ++ "|" ++ Y)).2.1 .theory
      = some (c ++ [⟨toString (c.length + 1), pyStrip Y⟩])
    ∧ handle_admin_input admins uid s w badMsg = (s, w, some .retryWithCancel) := by
  have hok := parseItemName_topics_ok X Y hX hY
  have herr := parseItemName_topics_err badMsg hbad
  have hsl : sectionOfLabel "Теория" = some SectionKey.theory := rfl
  unfold loadedColl loadDict at hc
  obtain ⟨st, sub, albl, asel⟩ := s
  simp only at hstate hsub hlbl
  subst hstate
  subst hsub
  subst hlbl
  constructor
  · simp [handle_admin_input, adminInputCore, getSectionCtx, hsl, hadm, hok, hc,
      loadedColl_save, dictGet?_dictSet, loadDict]
  · simp [handle_admin_input, adminInputCore, getSectionCtx, hsl, hadm, herr]

theorem topics_payload_discards_category_part_witness :
    loadedColl
        (handle_admin_input adminsOne 42
          ⟨.admin_panel, some .waiting_add_item, some "Теория", none⟩ emptyWorld
          ("любая категория" ++ "|" ++ " Тема ")).2.1 .theory
      = some [⟨"1", "Тема"⟩]
    ∧ handle_admin_input adminsOne 42
        ⟨.admin_panel, some .waiting_add_item, some "Теория", none⟩ emptyWorld "без разделителя"
      = (⟨.admin_panel, some .waiting_add_item, some "Теория", none⟩, emptyWorld,
          some .retryWithCancel) :=
  topics_payload_discards_category_part adminsOne 42
    ⟨.admin_panel, some .waiting_add_item, some "Теория", none⟩ emptyWorld
    [] "любая категория" " Тема " "без разделителя"
    (by decide) rfl rfl rfl (by decide) (by decide) (by decide) (by decide)
